import Mathlib

/-!
# Verification of the moving-average alignment screener

Shallow embedding of `src/app.py` (a Streamlit stock screener for the
"bullish alignment + moving-average convergence" pattern) and proofs of the
specified properties.

Numeric values are modelled by `ℚ` (the Python code works on float64 via
`df.astype(float)`; all claims proved here concern sign, order and exact
ratio facts that hold identically in exact arithmetic).
-/

set_option autoImplicit false

namespace MAScreen

/-- One row of the downloaded OHLCV dataframe, restricted to the two columns
`calculate_ma_alignment` reads: `Close` and `Volume`. -/
structure Bar where
  close : ℚ
  volume : ℚ
deriving DecidableEq, Repr

/-- Pandas `Series.rolling(w).mean()` (default `min_periods = w`): at index
`i` the mean of the `w` values ending at `i` inclusive, and missing (`NaN`,
modelled as `none`) while fewer than `w` observations are available. -/
def rollingMean (w : ℕ) (xs : List ℚ) : List (Option ℚ) :=
  (List.range xs.length).map fun i =>
    if w ≤ i + 1 then some ((((xs.drop (i + 1 - w)).take w).sum) / (w : ℚ)) else none

/-- The arithmetic mean of the `w` values of `xs` ending at index `i`
inclusive (the spec formulation of a simple moving average). -/
def windowMean (w : ℕ) (xs : List ℚ) (i : ℕ) : ℚ :=
  (((xs.take (i + 1)).drop (i + 1 - w)).sum) / (w : ℚ)

/-- `curr[MAw]`: the rolling close-price mean at the last row (`df.iloc[-1]`).
The `.getD 0` default is never exercised on the paths the program reaches:
`calculate_ma_alignment` only reads these after checking `60 ≤ df.length`,
where the value is present. -/
def lastMA (w : ℕ) (df : List Bar) : ℚ :=
  (((rollingMean w (df.map Bar.close)).getD (df.length - 1) none).getD 0)

/-- `prev[MAw]`: the rolling close-price mean at the second-to-last row
(`df.iloc[-2]`). -/
def prevMA (w : ℕ) (df : List Bar) : ℚ :=
  (((rollingMean w (df.map Bar.close)).getD (df.length - 2) none).getD 0)

/-- `curr[VolMA5]`: the 5-day rolling volume mean at the last row. -/
def lastVolMA5 (df : List Bar) : ℚ :=
  (((rollingMean 5 (df.map Bar.volume)).getD (df.length - 1) none).getD 0)

/-- `max(ma_list)` with `ma_list = [prev[MA5], prev[MA10], prev[MA20]]`. -/
def prevMaxMA (df : List Bar) : ℚ :=
  max (prevMA 5 df) (max (prevMA 10 df) (prevMA 20 df))

/-- `min(ma_list)` with `ma_list = [prev[MA5], prev[MA10], prev[MA20]]`. -/
def prevMinMA (df : List Bar) : ℚ :=
  min (prevMA 5 df) (min (prevMA 10 df) (prevMA 20 df))

/-- `gap = (max(ma_list) - min(ma_list)) / min(ma_list)` (line 65). -/
def convGap (df : List Bar) : ℚ :=
  (prevMaxMA df - prevMinMA df) / prevMinMA df

/-- `calculate_ma_alignment(df, convergence_threshold)` (src/app.py lines
40-68).  Returns `(False, 0)` for fewer than 60 rows; otherwise computes the
rolling means and combines
  - `cond_vol = curr.VolMA5 >= 2000000` (line 58, hard-coded 2000 lots),
  - `cond_bullish = curr.MA5 > curr.MA10 > curr.MA20 > curr.MA60` (line 61),
  - `cond_converged = gap <= convergence_threshold / 100` (line 66),
returning `(cond_vol and cond_bullish and cond_converged, gap)`. -/
def calculate_ma_alignment (df : List Bar) (convergence_threshold : ℚ) : Bool × ℚ :=
  if df.length < 60 then (false, 0)
  else
    let cond_vol : Bool := decide ((2000000 : ℚ) ≤ lastVolMA5 df)
    let cond_bullish : Bool :=
      decide (lastMA 10 df < lastMA 5 df ∧ lastMA 20 df < lastMA 10 df ∧
        lastMA 60 df < lastMA 20 df)
    let gap := convGap df
    let cond_converged : Bool := decide (gap ≤ convergence_threshold / 100)
    (cond_vol && cond_bullish && cond_converged, gap)

/-! ### Basic facts about the rolling mean -/

theorem rollingMean_length (w : ℕ) (xs : List ℚ) :
    (rollingMean w xs).length = xs.length := by
  simp [rollingMean]

theorem rollingMean_getD (w : ℕ) (xs : List ℚ) (i : ℕ) (h : i < xs.length) :
    (rollingMean w xs).getD i none =
      if w ≤ i + 1 then some ((((xs.drop (i + 1 - w)).take w).sum) / (w : ℚ))
      else none := by
  rw [rollingMean, List.getD_eq_getElem?_getD, List.getElem?_map,
    List.getElem?_range h]
  rfl

theorem rolling_window_eq_windowMean (w : ℕ) (xs : List ℚ) (i : ℕ)
    (hw : w ≤ i + 1) :
    (((xs.drop (i + 1 - w)).take w).sum) / (w : ℚ) = windowMean w xs i := by
  rw [windowMean, List.drop_take, Nat.sub_sub_self hw]

theorem rollingMean_getD_defined (w : ℕ) (xs : List ℚ) (i : ℕ)
    (h : i < xs.length) (hw : w ≤ i + 1) :
    (rollingMean w xs).getD i none = some (windowMean w xs i) := by
  rw [rollingMean_getD w xs i h, if_pos hw, rolling_window_eq_windowMean w xs i hw]

theorem rollingMean_getD_undefined (w : ℕ) (xs : List ℚ) (i : ℕ)
    (h : i < xs.length) (hw : i + 1 < w) :
    (rollingMean w xs).getD i none = none := by
  rw [rollingMean_getD w xs i h, if_neg (by omega)]

theorem lastMA_eq_windowMean (w : ℕ) (df : List Bar) (hw : w ≤ df.length)
    (h0 : 0 < df.length) :
    lastMA w df = windowMean w (df.map Bar.close) (df.length - 1) := by
  rw [lastMA, rollingMean_getD_defined w (df.map Bar.close) (df.length - 1)
    (by rw [List.length_map]; omega) (by omega)]
  rfl

theorem prevMA_eq_windowMean (w : ℕ) (df : List Bar) (hw : w + 1 ≤ df.length)
    (h0 : 2 ≤ df.length) :
    prevMA w df = windowMean w (df.map Bar.close) (df.length - 2) := by
  rw [prevMA, rollingMean_getD_defined w (df.map Bar.close) (df.length - 2)
    (by rw [List.length_map]; omega) (by omega)]
  rfl

theorem lastVolMA5_eq_windowMean (df : List Bar) (hw : 5 ≤ df.length) :
    lastVolMA5 df = windowMean 5 (df.map Bar.volume) (df.length - 1) := by
  rw [lastVolMA5, rollingMean_getD_defined 5 (df.map Bar.volume) (df.length - 1)
    (by rw [List.length_map]; omega) (by omega)]
  rfl

/-! ### Spec-level views: moving averages as explicit window means

`maCurr w df` is the arithmetic mean of the `w` closes ending at the last
row, `maPrev w df` the mean ending at the second-to-last row, and
`volMaCurr df` the mean of the last five volumes: the IndicatorRow fields
the spec speaks about. -/

def maCurr (w : ℕ) (df : List Bar) : ℚ :=
  windowMean w (df.map Bar.close) (df.length - 1)

def maPrev (w : ℕ) (df : List Bar) : ℚ :=
  windowMean w (df.map Bar.close) (df.length - 2)

def volMaCurr (df : List Bar) : ℚ :=
  windowMean 5 (df.map Bar.volume) (df.length - 1)

/-- `max(prev.ma5, prev.ma10, prev.ma20)` in spec view. -/
def gapNum (df : List Bar) : ℚ :=
  max (maPrev 5 df) (max (maPrev 10 df) (maPrev 20 df))

/-- `min(prev.ma5, prev.ma10, prev.ma20)` in spec view. -/
def gapDen (df : List Bar) : ℚ :=
  min (maPrev 5 df) (min (maPrev 10 df) (maPrev 20 df))

/-- The spec's convergence-gap formula, over the previous row's three short
moving averages (the 60-day one excluded). -/
def gapPrev (df : List Bar) : ℚ :=
  (gapNum df - gapDen df) / gapDen df

theorem prevMA_eq_maPrev (w : ℕ) (df : List Bar) (hw : w + 1 ≤ df.length)
    (h2 : 2 ≤ df.length) :
    prevMA w df = maPrev w df :=
  prevMA_eq_windowMean w df hw h2

theorem prevMinMA_eq_gapDen (df : List Bar) (h : 60 ≤ df.length) :
    prevMinMA df = gapDen df := by
  rw [prevMinMA, gapDen, prevMA_eq_maPrev 5 df (by omega) (by omega),
    prevMA_eq_maPrev 10 df (by omega) (by omega),
    prevMA_eq_maPrev 20 df (by omega) (by omega)]

theorem convGap_eq_gapPrev (df : List Bar) (h : 60 ≤ df.length) :
    convGap df = gapPrev df := by
  rw [convGap, gapPrev, gapNum, prevMinMA_eq_gapDen df h, prevMaxMA,
    prevMA_eq_maPrev 5 df (by omega) (by omega),
    prevMA_eq_maPrev 10 df (by omega) (by omega),
    prevMA_eq_maPrev 20 df (by omega) (by omega)]

/-- Unfolding of `calculate_ma_alignment` on a series of length ≥ 60: every
internal rolling-mean read is a genuine window mean at the last two rows. -/
theorem calculate_eval (df : List Bar) (thr : ℚ) (h : 60 ≤ df.length) :
    calculate_ma_alignment df thr =
      (decide ((2000000 : ℚ) ≤ volMaCurr df) &&
        decide (maCurr 10 df < maCurr 5 df ∧ maCurr 20 df < maCurr 10 df ∧
          maCurr 60 df < maCurr 20 df) &&
        decide (gapPrev df ≤ thr / 100), gapPrev df) := by
  rw [calculate_ma_alignment, if_neg (by omega)]
  rw [lastVolMA5_eq_windowMean df (by omega),
    lastMA_eq_windowMean 5 df (by omega) (by omega),
    lastMA_eq_windowMean 10 df (by omega) (by omega),
    lastMA_eq_windowMean 20 df (by omega) (by omega),
    lastMA_eq_windowMean 60 df (by omega) (by omega),
    convGap_eq_gapPrev df h]
  rfl

/-! ### Scale invariance of the convergence gap -/

/-- Multiply every close price by `c`, keeping volumes. -/
def scaleCloses (c : ℚ) (df : List Bar) : List Bar :=
  df.map fun b => ⟨c * b.close, b.volume⟩

theorem scaleCloses_length (c : ℚ) (df : List Bar) :
    (scaleCloses c df).length = df.length := by
  simp [scaleCloses]

theorem scaleCloses_closes (c : ℚ) (df : List Bar) :
    (scaleCloses c df).map Bar.close = (df.map Bar.close).map fun x => c * x := by
  simp only [scaleCloses, List.map_map]
  rfl

theorem sum_map_mul (c : ℚ) (l : List ℚ) :
    (l.map fun x => c * x).sum = c * l.sum := by
  simpa using List.sum_map_mul_left l id c

theorem rollingMean_map_mul (c : ℚ) (w : ℕ) (xs : List ℚ) :
    rollingMean w (xs.map fun x => c * x) =
      (rollingMean w xs).map (Option.map fun x => c * x) := by
  unfold rollingMean
  rw [List.length_map, List.map_map]
  refine List.map_congr_left fun i _ => ?_
  simp only [Function.comp_apply]
  by_cases hw : w ≤ i + 1
  · rw [if_pos hw, if_pos hw, Option.map_some']
    rw [← List.map_drop, ← List.map_take, sum_map_mul, mul_div_assoc]
  · rw [if_neg hw, if_neg hw, Option.map_none']

theorem getD_getD_map_mul (c : ℚ) (l : List (Option ℚ)) (i : ℕ) :
    (((l.map (Option.map fun x => c * x)).getD i none).getD 0) =
      c * ((l.getD i none).getD 0) := by
  rw [List.getD_eq_getElem?_getD, List.getD_eq_getElem?_getD, List.getElem?_map]
  rcases h : l[i]? with _ | o
  · simp
  · rcases o with _ | a <;> simp

theorem prevMA_scale (c : ℚ) (w : ℕ) (df : List Bar) :
    prevMA w (scaleCloses c df) = c * prevMA w df := by
  unfold prevMA
  rw [scaleCloses_length, scaleCloses_closes, rollingMean_map_mul,
    getD_getD_map_mul]

theorem prevMaxMA_scale (c : ℚ) (df : List Bar) (hc : 0 ≤ c) :
    prevMaxMA (scaleCloses c df) = c * prevMaxMA df := by
  unfold prevMaxMA
  rw [prevMA_scale, prevMA_scale, prevMA_scale,
    mul_max_of_nonneg _ _ hc, mul_max_of_nonneg _ _ hc]

theorem prevMinMA_scale (c : ℚ) (df : List Bar) (hc : 0 ≤ c) :
    prevMinMA (scaleCloses c df) = c * prevMinMA df := by
  unfold prevMinMA
  rw [prevMA_scale, prevMA_scale, prevMA_scale,
    mul_min_of_nonneg _ _ hc, mul_min_of_nonneg _ _ hc]

theorem convGap_scale (c : ℚ) (df : List Bar) (hc : 0 < c) :
    convGap (scaleCloses c df) = convGap df := by
  unfold convGap
  rw [prevMaxMA_scale c df hc.le, prevMinMA_scale c df hc.le, ← mul_sub,
    mul_div_mul_left _ _ hc.ne']

theorem calculate_snd (df : List Bar) (thr : ℚ) (h : ¬ df.length < 60) :
    (calculate_ma_alignment df thr).2 = convGap df := by
  rw [calculate_ma_alignment, if_neg h]

/-! ### The evaluator with an explicit ScreenCriteria (spec refinement view) -/

/-- The spec's ScreenCriteria record: `{convergenceThresholdPercent,
volumeFloorShares}`.  The floor is a positive integer of shares in the spec;
it is carried as a rational here since it only ever enters a comparison. -/
structure ScreenCriteria where
  convergenceThresholdPercent : ℚ
  volumeFloorShares : ℚ
deriving DecidableEq, Repr

/-- The Condition Evaluator as the spec words it, with the volume floor read
from the supplied ScreenCriteria instead of the hard-coded 2000000 of
src/app.py line 58.  Kept side by side with `calculate_ma_alignment` to
compare the two (claim C4); everything except `cond_vol`'s bound is the
same. -/
def spec_ma_alignment (df : List Bar) (crit : ScreenCriteria) : Bool × ℚ :=
  if df.length < 60 then (false, 0)
  else
    let cond_vol : Bool := decide (crit.volumeFloorShares ≤ lastVolMA5 df)
    let cond_bullish : Bool :=
      decide (lastMA 10 df < lastMA 5 df ∧ lastMA 20 df < lastMA 10 df ∧
        lastMA 60 df < lastMA 20 df)
    let gap := convGap df
    let cond_converged : Bool :=
      decide (gap ≤ crit.convergenceThresholdPercent / 100)
    (cond_vol && cond_bullish && cond_converged, gap)

theorem spec_eval (df : List Bar) (crit : ScreenCriteria) (h : 60 ≤ df.length) :
    spec_ma_alignment df crit =
      (decide (crit.volumeFloorShares ≤ volMaCurr df) &&
        decide (maCurr 10 df < maCurr 5 df ∧ maCurr 20 df < maCurr 10 df ∧
          maCurr 60 df < maCurr 20 df) &&
        decide (gapPrev df ≤ crit.convergenceThresholdPercent / 100),
        gapPrev df) := by
  rw [spec_ma_alignment, if_neg (by omega)]
  rw [lastVolMA5_eq_windowMean df (by omega),
    lastMA_eq_windowMean 5 df (by omega) (by omega),
    lastMA_eq_windowMean 10 df (by omega) (by omega),
    lastMA_eq_windowMean 20 df (by omega) (by omega),
    lastMA_eq_windowMean 60 df (by omega) (by omega),
    convGap_eq_gapPrev df h]
  rfl

/-! ### The screening loop (st.button body, src/app.py lines 77-116) -/

/-- A pandas dataframe at the resolution the loop needs: named columns of
numeric values, `none` standing for a missing value (NaN).  The frames
returned by `yf.download` carry the OHLCV columns; only `Close` and
`Volume` are ever read by the screener. -/
structure PFrame where
  cols : List (String × List (Option ℚ))
deriving DecidableEq, Repr

/-- Column lookup, `df[name]`; `none` when the column is absent (a lookup of
an absent column raises KeyError in the program). -/
def PFrame.colOf (f : PFrame) (name : String) : Option (List (Option ℚ)) :=
  (f.cols.find? fun p => p.1 = name).map Prod.snd

/-- The numeric values of a column (frames fed to the screener carry no
missing values in the retrieved window). -/
def colVals (f : PFrame) (name : String) : List ℚ :=
  ((f.colOf name).getD []).map fun o => o.getD 0

/-- `len(df)`: the number of rows, read off the Close column. -/
def PFrame.nRows (f : PFrame) : ℕ :=
  (colVals f "Close").length

/-- The per-ticker series the evaluator consumes: Close/Volume pairs. -/
def toBars (f : PFrame) : List Bar :=
  List.zipWith (fun c v => ⟨c, v⟩) (colVals f "Close") (colVals f "Volume")

/-- Python `round(x, 2)` (the underlying double's half-to-even tie break is
not modelled; no theorem below depends on the rounded value). -/
def round2 (x : ℚ) : ℚ :=
  ((round (x * 100) : ℤ) : ℚ) / 100

/-- Python `int(x)`: truncation toward zero. -/
def pyInt (x : ℚ) : ℤ :=
  x.num / (x.den : ℤ)

/-- One row appended to `results` (lines 102-107): ticker code, rounded last
close, five-day average volume in lots of 1000 shares, and the convergence
gap (rendered as a percent string by the UI). -/
structure MatchRow where
  ticker : String
  price : ℚ
  volLots : ℤ
  gapPct : ℚ
deriving DecidableEq, Repr

/-- Building the result row (lines 101-107).  `curr = stock_df.iloc[-1]` is
the last row of the frame the loop downloaded; `curr['VolMA5']` raises
KeyError when that frame has no `VolMA5` column (modelled by `none`), and
`int(...)` of a missing value raises as well — either way the blanket
`except` of line 108 turns the row into nothing. -/
def mkRow (t : String) (f : PFrame) (gap : ℚ) : Option MatchRow :=
  match f.colOf "VolMA5" with
  | none => none
  | some vcol =>
    match vcol.getLast?.getD none with
    | none => none
    | some v => some ⟨t, round2 ((colVals f "Close").getLast?.getD 0),
        pyInt (v / 1000), gap⟩

/-- One iteration of the screening loop (lines 93-109).  `fetch t = none`
models `yf.download` raising; an empty or short frame is skipped
(`continue`, line 96); a non-match contributes nothing; a match contributes
whatever `mkRow` manages to build before the `except` of line 108. -/
def processTicker (fetch : String → Option PFrame) (thr : ℚ) (t : String) :
    Option MatchRow :=
  match fetch t with
  | none => none
  | some f =>
    if f.nRows < 60 then none
    else
      let r := calculate_ma_alignment (toBars f) thr
      if r.1 then mkRow t f r.2 else none

/-- The whole scan: the `results` list accumulated over the ticker loop, in
ticker order.  Failing tickers contribute nothing and abort nothing. -/
def screenRun (fetch : String → Option PFrame) (thr : ℚ)
    (tickers : List String) : List MatchRow :=
  tickers.filterMap (processTicker fetch thr)

/-- What the button handler surfaces: the error banner of line 80 when the
universe came back empty, else the completed scan. -/
inductive RunOutcome where
  | universeError : RunOutcome
  | completed : List MatchRow → RunOutcome
deriving DecidableEq, Repr

/-- The st.button body (lines 77-82): `if not tickers: st.error(...)` —
empty universe short-circuits before any screening — else run the scan. -/
def runButton (fetch : String → Option PFrame) (thr : ℚ)
    (tickers : List String) : RunOutcome :=
  if tickers.isEmpty then RunOutcome.universeError
  else RunOutcome.completed (screenRun fetch thr tickers)

/-! ### Heap-level view of calculate_ma_alignment (mutation claim)

Python assignment `df[col] = ...` mutates the frame object the local name
`df` is bound to.  To make the frame effect visible, the body of
`calculate_ma_alignment` is replayed against a heap of frame objects
addressed by position; the caller's frame lives at `r0`, and the rebinding
`df = df.astype(float)` (line 45) makes the local name point at a freshly
allocated copy before any column is written. -/

def emptyFrame : PFrame := ⟨[]⟩

/-- pandas column assignment `df[name] = vals`: overwrite the column in
place if present, append it otherwise. -/
def PFrame.setCol (f : PFrame) (name : String) (vals : List (Option ℚ)) :
    PFrame :=
  if f.cols.any fun p => p.1 = name then
    ⟨f.cols.map fun p => if p.1 = name then (name, vals) else p⟩
  else ⟨f.cols ++ [(name, vals)]⟩

/-- `df.astype(float)`: a fresh frame with the same (already numeric) data;
the allocation itself is the `++ [...]` in the heap body below. -/
def astype_float (f : PFrame) : PFrame := f

/-- Lines 40-68 of src/app.py with the frame operations made explicit.
`r0` is the address of the caller's `stock_df`.  Line 45 allocates the copy
at a fresh address `r1` and rebinds `df` there; lines 48-52 write the five
indicator columns through `df`, i.e. at `r1`.  The decision pair is the one
`calculate_ma_alignment` computes from the same Close/Volume data (the
reads of lines 54-68 all go to the copy, whose Close and Volume columns the
writes never touch). -/
def calculate_ma_alignment_heap (h : List PFrame) (r0 : ℕ) (thr : ℚ) :
    (Bool × ℚ) × List PFrame :=
  let df0 := h.getD r0 emptyFrame
  if df0.nRows < 60 then ((false, 0), h)
  else
    let h1 := h ++ [astype_float df0]
    let r1 := h.length
    let closes := colVals df0 "Close"
    let vols := colVals df0 "Volume"
    let h2 := h1.set r1 ((h1.getD r1 emptyFrame).setCol "MA5" (rollingMean 5 closes))
    let h3 := h2.set r1 ((h2.getD r1 emptyFrame).setCol "MA10" (rollingMean 10 closes))
    let h4 := h3.set r1 ((h3.getD r1 emptyFrame).setCol "MA20" (rollingMean 20 closes))
    let h5 := h4.set r1 ((h4.getD r1 emptyFrame).setCol "MA60" (rollingMean 60 closes))
    let h6 := h5.set r1 ((h5.getD r1 emptyFrame).setCol "VolMA5" (rollingMean 5 vols))
    ((calculate_ma_alignment (toBars df0) thr), h6)

theorem getD_set_ne {l : List PFrame} {i j : ℕ} (h : i ≠ j) (a d : PFrame) :
    (l.set i a).getD j d = l.getD j d := by
  rw [List.getD_eq_getElem?_getD, List.getD_eq_getElem?_getD,
    List.getElem?_set_ne h]

/-! ### Concrete series used by the witnesses and counterexamples -/

/-- Sixty closes: flat at 100, then a five-day rise to 105. -/
def closesA : List ℚ := List.replicate 55 100 ++ [101, 102, 103, 104, 105]

/-- Sixty closes, entirely negative: flat at -100, then a five-day rise to
-95.  Exercises the unguarded `min ≤ 0` edge of the gap computation. -/
def closesNeg : List ℚ := List.replicate 55 (-100) ++ [-99, -98, -97, -96, -95]

/-- A series with the given closes and a constant daily volume `v`. -/
def mkBars (cs : List ℚ) (v : ℚ) : List Bar := cs.map fun c => ⟨c, v⟩

theorem closesA_length : closesA.length = 60 := by simp [closesA]

theorem closesNeg_length : closesNeg.length = 60 := by simp [closesNeg]

theorem mkBars_length (cs : List ℚ) (v : ℚ) : (mkBars cs v).length = cs.length := by
  simp [mkBars]

theorem mkBars_closes (cs : List ℚ) (v : ℚ) : (mkBars cs v).map Bar.close = cs := by
  rw [mkBars, List.map_map, show (Bar.close ∘ fun c => (⟨c, v⟩ : Bar)) = id from rfl,
    List.map_id]

theorem mkBars_vols (cs : List ℚ) (v : ℚ) :
    (mkBars cs v).map Bar.volume = List.replicate cs.length v := by
  rw [mkBars, List.map_map, show (Bar.volume ∘ fun c => (⟨c, v⟩ : Bar)) = fun _ => v from rfl,
    List.map_const']

theorem windowMean_replicate (w n i : ℕ) (x : ℚ) (hw : 0 < w) (hi : i < n)
    (hwi : w ≤ i + 1) :
    windowMean w (List.replicate n x) i = x := by
  rw [windowMean, List.take_replicate, List.drop_replicate, List.sum_replicate]
  rw [show (i + 1) ⊓ n - (i + 1 - w) = w from by omega, nsmul_eq_mul]
  exact mul_div_cancel_left₀ x (by exact_mod_cast hw.ne')

theorem volMaCurr_mkBars (cs : List ℚ) (v : ℚ) (h : cs.length = 60) :
    volMaCurr (mkBars cs v) = v := by
  rw [volMaCurr, mkBars_vols, mkBars_length, h]
  exact windowMean_replicate 5 60 59 v (by norm_num) (by norm_num) (by norm_num)

theorem maCurr5_A (v : ℚ) : maCurr 5 (mkBars closesA v) = 103 := by
  rw [maCurr, mkBars_closes, mkBars_length, closesA_length]
  rw [windowMean, show (closesA.take 60).drop 55 = [101, 102, 103, 104, 105] from rfl]
  norm_num [List.sum_cons, List.sum_nil]

theorem maCurr10_A (v : ℚ) : maCurr 10 (mkBars closesA v) = 203 / 2 := by
  rw [maCurr, mkBars_closes, mkBars_length, closesA_length]
  rw [windowMean, show (closesA.take 60).drop 50 =
    List.replicate 5 100 ++ [101, 102, 103, 104, 105] from rfl]
  simp only [List.sum_append, List.sum_replicate]
  norm_num [List.sum_cons, List.sum_nil]

theorem maCurr20_A (v : ℚ) : maCurr 20 (mkBars closesA v) = 403 / 4 := by
  rw [maCurr, mkBars_closes, mkBars_length, closesA_length]
  rw [windowMean, show (closesA.take 60).drop 40 =
    List.replicate 15 100 ++ [101, 102, 103, 104, 105] from rfl]
  simp only [List.sum_append, List.sum_replicate]
  norm_num [List.sum_cons, List.sum_nil]

theorem maCurr60_A (v : ℚ) : maCurr 60 (mkBars closesA v) = 401 / 4 := by
  rw [maCurr, mkBars_closes, mkBars_length, closesA_length]
  rw [windowMean, show (closesA.take 60).drop 0 =
    List.replicate 55 100 ++ [101, 102, 103, 104, 105] from rfl]
  simp only [List.sum_append, List.sum_replicate]
  norm_num [List.sum_cons, List.sum_nil]

theorem maPrev5_A (v : ℚ) : maPrev 5 (mkBars closesA v) = 102 := by
  rw [maPrev, mkBars_closes, mkBars_length, closesA_length]
  rw [windowMean, show (closesA.take 59).drop 54 = [100, 101, 102, 103, 104] from rfl]
  norm_num [List.sum_cons, List.sum_nil]

theorem maPrev10_A (v : ℚ) : maPrev 10 (mkBars closesA v) = 101 := by
  rw [maPrev, mkBars_closes, mkBars_length, closesA_length]
  rw [windowMean, show (closesA.take 59).drop 49 =
    List.replicate 6 100 ++ [101, 102, 103, 104] from rfl]
  simp only [List.sum_append, List.sum_replicate]
  norm_num [List.sum_cons, List.sum_nil]

theorem maPrev20_A (v : ℚ) : maPrev 20 (mkBars closesA v) = 201 / 2 := by
  rw [maPrev, mkBars_closes, mkBars_length, closesA_length]
  rw [windowMean, show (closesA.take 59).drop 39 =
    List.replicate 16 100 ++ [101, 102, 103, 104] from rfl]
  simp only [List.sum_append, List.sum_replicate]
  norm_num [List.sum_cons, List.sum_nil]

theorem gapNum_A (v : ℚ) : gapNum (mkBars closesA v) = 102 := by
  rw [gapNum, maPrev5_A, maPrev10_A, maPrev20_A]
  norm_num [max_def]

theorem gapDen_A (v : ℚ) : gapDen (mkBars closesA v) = 201 / 2 := by
  rw [gapDen, maPrev5_A, maPrev10_A, maPrev20_A]
  norm_num [min_def]

theorem gapPrev_A (v : ℚ) : gapPrev (mkBars closesA v) = 1 / 67 := by
  rw [gapPrev, gapNum_A, gapDen_A]
  norm_num

theorem maCurr5_N (v : ℚ) : maCurr 5 (mkBars closesNeg v) = -97 := by
  rw [maCurr, mkBars_closes, mkBars_length, closesNeg_length]
  rw [windowMean, show (closesNeg.take 60).drop 55 = [-99, -98, -97, -96, -95] from rfl]
  norm_num [List.sum_cons, List.sum_nil]

theorem maCurr10_N (v : ℚ) : maCurr 10 (mkBars closesNeg v) = -197 / 2 := by
  rw [maCurr, mkBars_closes, mkBars_length, closesNeg_length]
  rw [windowMean, show (closesNeg.take 60).drop 50 =
    List.replicate 5 (-100) ++ [-99, -98, -97, -96, -95] from rfl]
  simp only [List.sum_append, List.sum_replicate]
  norm_num [List.sum_cons, List.sum_nil]

theorem maCurr20_N (v : ℚ) : maCurr 20 (mkBars closesNeg v) = -397 / 4 := by
  rw [maCurr, mkBars_closes, mkBars_length, closesNeg_length]
  rw [windowMean, show (closesNeg.take 60).drop 40 =
    List.replicate 15 (-100) ++ [-99, -98, -97, -96, -95] from rfl]
  simp only [List.sum_append, List.sum_replicate]
  norm_num [List.sum_cons, List.sum_nil]

theorem maCurr60_N (v : ℚ) : maCurr 60 (mkBars closesNeg v) = -399 / 4 := by
  rw [maCurr, mkBars_closes, mkBars_length, closesNeg_length]
  rw [windowMean, show (closesNeg.take 60).drop 0 =
    List.replicate 55 (-100) ++ [-99, -98, -97, -96, -95] from rfl]
  simp only [List.sum_append, List.sum_replicate]
  norm_num [List.sum_cons, List.sum_nil]

theorem maPrev5_N (v : ℚ) : maPrev 5 (mkBars closesNeg v) = -98 := by
  rw [maPrev, mkBars_closes, mkBars_length, closesNeg_length]
  rw [windowMean, show (closesNeg.take 59).drop 54 = [-100, -99, -98, -97, -96] from rfl]
  norm_num [List.sum_cons, List.sum_nil]

theorem maPrev10_N (v : ℚ) : maPrev 10 (mkBars closesNeg v) = -99 := by
  rw [maPrev, mkBars_closes, mkBars_length, closesNeg_length]
  rw [windowMean, show (closesNeg.take 59).drop 49 =
    List.replicate 6 (-100) ++ [-99, -98, -97, -96] from rfl]
  simp only [List.sum_append, List.sum_replicate]
  norm_num [List.sum_cons, List.sum_nil]

theorem maPrev20_N (v : ℚ) : maPrev 20 (mkBars closesNeg v) = -199 / 2 := by
  rw [maPrev, mkBars_closes, mkBars_length, closesNeg_length]
  rw [windowMean, show (closesNeg.take 59).drop 39 =
    List.replicate 16 (-100) ++ [-99, -98, -97, -96] from rfl]
  simp only [List.sum_append, List.sum_replicate]
  norm_num [List.sum_cons, List.sum_nil]

theorem gapNum_N (v : ℚ) : gapNum (mkBars closesNeg v) = -98 := by
  rw [gapNum, maPrev5_N, maPrev10_N, maPrev20_N]
  norm_num [max_def]

theorem gapDen_N (v : ℚ) : gapDen (mkBars closesNeg v) = -199 / 2 := by
  rw [gapDen, maPrev5_N, maPrev10_N, maPrev20_N]
  norm_num [min_def]

theorem gapPrev_N (v : ℚ) : gapPrev (mkBars closesNeg v) = -3 / 199 := by
  rw [gapPrev, gapNum_N, gapDen_N]
  norm_num

theorem mkBarsA_len (v : ℚ) : (mkBars closesA v).length = 60 := by
  rw [mkBars_length, closesA_length]

theorem mkBarsN_len (v : ℚ) : (mkBars closesNeg v).length = 60 := by
  rw [mkBars_length, closesNeg_length]

/-- The rising series with ample volume passes all three conditions; the
gap is `(102 - 100.5) / 100.5 = 1/67 ≈ 1.49%`. -/
theorem calculate_A_hi :
    calculate_ma_alignment (mkBars closesA 3000000) 3 = (true, 1 / 67) := by
  rw [calculate_eval _ 3 (mkBarsA_len 3000000).ge]
  rw [volMaCurr_mkBars _ _ closesA_length, maCurr5_A, maCurr10_A, maCurr20_A,
    maCurr60_A, gapPrev_A]
  norm_num

/-- The same closes with a 1.5M-share average volume fail only the
hard-coded 2M floor. -/
theorem calculate_A_low :
    calculate_ma_alignment (mkBars closesA 1500000) 3 = (false, 1 / 67) := by
  rw [calculate_eval _ 3 (mkBarsA_len 1500000).ge]
  rw [volMaCurr_mkBars _ _ closesA_length, maCurr5_A, maCurr10_A, maCurr20_A,
    maCurr60_A, gapPrev_A]
  norm_num

/-- On the all-negative series the previous-row minimum is negative, the
gap comes out negative, the convergence test passes vacuously, and the
evaluator reports a match. -/
theorem calculate_N :
    calculate_ma_alignment (mkBars closesNeg 3000000) 3 = (true, -3 / 199) := by
  rw [calculate_eval _ 3 (mkBarsN_len 3000000).ge]
  rw [volMaCurr_mkBars _ _ closesNeg_length, maCurr5_N, maCurr10_N, maCurr20_N,
    maCurr60_N, gapPrev_N]
  norm_num

theorem maCurr_const (w : ℕ) (x v : ℚ) (hw : 0 < w) (hw60 : w ≤ 60) :
    maCurr w (mkBars (List.replicate 60 x) v) = x := by
  rw [maCurr, mkBars_closes, mkBars_length, List.length_replicate]
  exact windowMean_replicate w 60 59 x hw (by norm_num) (by omega)

theorem maPrev_const (w : ℕ) (x v : ℚ) (hw : 0 < w) (hw59 : w ≤ 59) :
    maPrev w (mkBars (List.replicate 60 x) v) = x := by
  rw [maPrev, mkBars_closes, mkBars_length, List.length_replicate]
  exact windowMean_replicate w 60 58 x hw (by norm_num) (by omega)

theorem gapPrev_const :
    gapPrev (mkBars (List.replicate 60 (100 : ℚ)) 3000000) = 0 := by
  rw [gapPrev, gapNum, gapDen, maPrev_const 5 _ _ (by norm_num) (by norm_num),
    maPrev_const 10 _ _ (by norm_num) (by norm_num),
    maPrev_const 20 _ _ (by norm_num) (by norm_num)]
  norm_num

/-- A 60-row series of constant closes: the three previous-row averages
coincide, so the genuinely computed gap is the number 0 (and the strict
alignment fails), giving the very same output `(False, 0)` that a too-short
series gets. -/
theorem calculate_const :
    calculate_ma_alignment (mkBars (List.replicate 60 (100 : ℚ)) 3000000) 3 =
      (false, 0) := by
  rw [calculate_eval _ 3 (by rw [mkBars_length, List.length_replicate])]
  rw [gapPrev_const, maCurr_const 5 _ _ (by norm_num) (by norm_num),
    maCurr_const 10 _ _ (by norm_num) (by norm_num),
    maCurr_const 20 _ _ (by norm_num) (by norm_num),
    maCurr_const 60 _ _ (by norm_num) (by norm_num)]
  norm_num

/-- A downloaded frame with the given closes and constant volume: exactly
the two columns the screener reads, no missing values. -/
def frameOf (cs : List ℚ) (v : ℚ) : PFrame :=
  ⟨[("Close", cs.map some), ("Volume", cs.map fun _ => some v)]⟩

theorem toBars_frameA : toBars (frameOf closesA 3000000) = mkBars closesA 3000000 := rfl

theorem frameA_rows : (frameOf closesA 3000000).nRows = 60 := rfl

theorem frameA_no_volma : (frameOf closesA 3000000).colOf "VolMA5" = none := rfl

/-- A universe source that returns the passing frame for 2330.TW and fails
for everything else. -/
def fetchHi : String → Option PFrame :=
  fun t => if t = "2330.TW" then some (frameOf closesA 3000000) else none

/-- The loop body on the passing ticker: the match decision is `True`, yet
building the result row dies on `curr['VolMA5']` — the downloaded frame has
no `VolMA5` column, because `calculate_ma_alignment` wrote the indicator
columns into its own copy — and the `except` of line 108 drops the row. -/
theorem processTicker_A : processTicker fetchHi 3 "2330.TW" = none := by
  simp only [processTicker, fetchHi, if_pos, toBars_frameA, calculate_A_hi,
    frameA_rows]
  norm_num [mkRow, frameA_no_volma]

/-! ## The claims -/

/-- Claim C1 (confirmed): on a pair of last two rows whose required
moving-average fields are all defined — which the evaluator guarantees by
its length-≥-60 gate — and whose previous-row minimum of MA5/MA10/MA20 is
positive, the evaluator matches exactly when all three conditions hold at
once: the five-day average volume reaches the (hard-coded) floor of
2,000,000 shares, the current row is strictly bullish-aligned
`ma5 > ma10 > ma20 > ma60`, and the previous-row gap
`(max(prev.ma5, prev.ma10, prev.ma20) - min(...)) / min(...)` — the 60-day
average excluded — is at most `threshold / 100`; and the returned gap
value is exactly that formula. -/
theorem match_iff_conditions_C1 (df : List Bar) (thr : ℚ)
    (hlen : 60 ≤ df.length) (hpos : 0 < gapDen df) :
    ((calculate_ma_alignment df thr).1 = true ↔
      ((2000000 : ℚ) ≤ volMaCurr df ∧
        (maCurr 10 df < maCurr 5 df ∧ maCurr 20 df < maCurr 10 df ∧
          maCurr 60 df < maCurr 20 df) ∧
        (gapNum df - gapDen df) / gapDen df ≤ thr / 100)) ∧
    (calculate_ma_alignment df thr).2 = (gapNum df - gapDen df) / gapDen df := by
  rw [calculate_eval df thr hlen]
  constructor
  · simp only [Bool.and_eq_true, decide_eq_true_eq, gapPrev]
    tauto
  · rfl

theorem match_iff_conditions_C1_witness :
    60 ≤ (mkBars closesA 3000000).length ∧ 0 < gapDen (mkBars closesA 3000000) ∧
    (((calculate_ma_alignment (mkBars closesA 3000000) 3).1 = true ↔
      ((2000000 : ℚ) ≤ volMaCurr (mkBars closesA 3000000) ∧
        (maCurr 10 (mkBars closesA 3000000) < maCurr 5 (mkBars closesA 3000000) ∧
          maCurr 20 (mkBars closesA 3000000) < maCurr 10 (mkBars closesA 3000000) ∧
          maCurr 60 (mkBars closesA 3000000) < maCurr 20 (mkBars closesA 3000000)) ∧
        (gapNum (mkBars closesA 3000000) - gapDen (mkBars closesA 3000000)) /
          gapDen (mkBars closesA 3000000) ≤ 3 / 100)) ∧
    (calculate_ma_alignment (mkBars closesA 3000000) 3).2 =
      (gapNum (mkBars closesA 3000000) - gapDen (mkBars closesA 3000000)) /
        gapDen (mkBars closesA 3000000)) :=
  ⟨(mkBarsA_len 3000000).ge, by rw [gapDen_A]; norm_num,
    match_iff_conditions_C1 (mkBars closesA 3000000) 3 (mkBarsA_len 3000000).ge
      (by rw [gapDen_A]; norm_num)⟩

/-- Claim C2 (code bug): the claim says each ticker passing all three
conditions contributes exactly one MatchResult row.  On this concrete
universe the single ticker's 60-row series passes — the evaluator returns
`(True, 1/67)` — yet the run's result list is empty: line 105 reads
`curr['VolMA5']` from `stock_df`, which has no such column because
`calculate_ma_alignment` wrote the indicator columns into the copy made by
`df = df.astype(float)` (line 45); the KeyError is swallowed by the
blanket `except` (line 108) and the row is never appended. -/
theorem passing_ticker_dropped_C2 :
    calculate_ma_alignment (toBars (frameOf closesA 3000000)) 3 = (true, 1 / 67) ∧
    screenRun fetchHi 3 ["2330.TW"] = [] := by
  refine ⟨by rw [toBars_frameA]; exact calculate_A_hi, ?_⟩
  simp [screenRun, List.filterMap, processTicker_A]

/-- Claim C3 counterexample: a concrete pair with
`min(prev.ma5, prev.ma10, prev.ma20) = -99.5 < 0` on which the evaluator
does NOT return a non-match: it performs the division anyway, produces the
negative gap `-3/199`, the convergence test passes vacuously, and the
match decision is `True`. -/
theorem negative_min_C3_counterexample :
    gapDen (mkBars closesNeg 3000000) < 0 ∧
    calculate_ma_alignment (mkBars closesNeg 3000000) 3 = (true, -3 / 199) :=
  ⟨by rw [gapDen_N]; norm_num, calculate_N⟩

/-- Claim C3 amended: the evaluator has no guard on
`min(prev.ma5, prev.ma10, prev.ma20)`.  When that minimum is negative it
divides anyway: the returned gap is ≤ 0, the convergence condition holds
vacuously for any nonnegative threshold, and the match decision degenerates
to volume-floor ∧ bullish-alignment.  (When the minimum is exactly zero the
Python float division yields infinity or NaN — floating-point behaviour
outside this rational model — so only the negative case is stated.) -/
theorem negative_min_no_guard_C3 (df : List Bar) (thr : ℚ)
    (hlen : 60 ≤ df.length) (hneg : gapDen df < 0) (hthr : 0 ≤ thr) :
    (calculate_ma_alignment df thr).2 ≤ 0 ∧
    (calculate_ma_alignment df thr).1 =
      (decide ((2000000 : ℚ) ≤ volMaCurr df) &&
        decide (maCurr 10 df < maCurr 5 df ∧ maCurr 20 df < maCurr 10 df ∧
          maCurr 60 df < maCurr 20 df)) := by
  have hle : gapDen df ≤ gapNum df :=
    le_trans (min_le_left _ _) (le_max_left _ _)
  have hgap : gapPrev df ≤ 0 := by
    rw [gapPrev]
    exact div_nonpos_iff.mpr (Or.inl ⟨sub_nonneg.mpr hle, hneg.le⟩)
  have hconv : gapPrev df ≤ thr / 100 :=
    le_trans hgap (div_nonneg hthr (by norm_num))
  rw [calculate_eval df thr hlen]
  exact ⟨hgap, by simp [hconv]⟩

theorem negative_min_no_guard_C3_witness :
    60 ≤ (mkBars closesNeg 3000000).length ∧
    gapDen (mkBars closesNeg 3000000) < 0 ∧ (0 : ℚ) ≤ 3 ∧
    ((calculate_ma_alignment (mkBars closesNeg 3000000) 3).2 ≤ 0 ∧
      (calculate_ma_alignment (mkBars closesNeg 3000000) 3).1 =
        (decide ((2000000 : ℚ) ≤ volMaCurr (mkBars closesNeg 3000000)) &&
          decide (maCurr 10 (mkBars closesNeg 3000000) < maCurr 5 (mkBars closesNeg 3000000) ∧
            maCurr 20 (mkBars closesNeg 3000000) < maCurr 10 (mkBars closesNeg 3000000) ∧
            maCurr 60 (mkBars closesNeg 3000000) < maCurr 20 (mkBars closesNeg 3000000)))) :=
  ⟨(mkBarsN_len 3000000).ge, by rw [gapDen_N]; norm_num, by norm_num,
    negative_min_no_guard_C3 (mkBars closesNeg 3000000) 3 (mkBarsN_len 3000000).ge
      (by rw [gapDen_N]; norm_num) (by norm_num)⟩

/-- Claim C4 counterexample: the volume floor is NOT taken from supplied
criteria.  With an average volume of 1,500,000 shares and a supplied floor
of 1,000,000, the criteria-driven evaluator (the spec's reading) matches,
while the code's evaluator — identical except that line 58 compares against
the literal 2,000,000 — does not. -/
theorem volume_floor_C4_counterexample :
    (spec_ma_alignment (mkBars closesA 1500000) ⟨3, 1000000⟩).1 = true ∧
    (calculate_ma_alignment (mkBars closesA 1500000) 3).1 = false := by
  constructor
  · rw [spec_eval _ _ (mkBarsA_len 1500000).ge]
    rw [volMaCurr_mkBars _ _ closesA_length, maCurr5_A, maCurr10_A, maCurr20_A,
      maCurr60_A, gapPrev_A]
    norm_num
  · rw [calculate_A_low]

/-- Claim C4 amended: the volume floor is the constant 2,000,000 shares
(2000 lots of 1000) fixed inside the evaluator at line 58; the only
externally tunable per-run parameter is the convergence threshold.  The
code's evaluator coincides with the criteria-driven evaluator exactly at a
criteria record carrying that constant as its floor. -/
theorem volume_floor_fixed_C4 (df : List Bar) (thr : ℚ) :
    calculate_ma_alignment df thr = spec_ma_alignment df ⟨thr, 2000000⟩ := rfl

/-- Claim C5 counterexample: the run records no per-ticker failure note.
A run over one ticker whose retrieval fails yields an outcome identical to
the run over the empty universe: the bare (empty) match list, with no trace
of the failed ticker or of any reason. -/
theorem failure_not_recorded_C5_counterexample :
    screenRun (fun _ => none) 3 ["2330.TW"] = screenRun (fun _ => none) 3 [] ∧
    screenRun (fun _ => none) 3 ["2330.TW"] = [] :=
  ⟨rfl, rfl⟩

/-- Claim C5 amended: a ticker whose retrieval fails, or whose series is
empty or shorter than 60 rows, is silently skipped (`continue`, lines 96
and 108-109): the run completes and its outcome equals the outcome of the
same run without that ticker; the outcome carries only match rows and no
failure map. -/
theorem failing_ticker_skipped_C5 (fetch : String → Option PFrame) (thr : ℚ)
    (t : String) (rest : List String)
    (hf : fetch t = none ∨ ∃ f, fetch t = some f ∧ f.nRows < 60) :
    screenRun fetch thr (t :: rest) = screenRun fetch thr rest := by
  have hp : processTicker fetch thr t = none := by
    rcases hf with h | ⟨f, hf, hlt⟩
    · simp [processTicker, h]
    · simp [processTicker, hf, hlt]
  simp [screenRun, List.filterMap_cons, hp]

theorem failing_ticker_skipped_C5_witness :
    ((fun _ : String => (none : Option PFrame)) "2330.TW" = none ∨
      ∃ f, (fun _ : String => (none : Option PFrame)) "2330.TW" = some f ∧
        f.nRows < 60) ∧
    screenRun (fun _ => none) 3 ["2330.TW", "2317.TW"] =
      screenRun (fun _ => none) 3 ["2317.TW"] :=
  ⟨Or.inl rfl,
    failing_ticker_skipped_C5 (fun _ => none) 3 "2330.TW" ["2317.TW"] (Or.inl rfl)⟩

/-- Claim C6 (confirmed): an empty ticker universe takes the
`st.error` branch (line 80) before any screening happens, and that outcome
is distinct from every completed run — in particular from a completed run
with zero matches. -/
theorem empty_universe_error_C6 (fetch : String → Option PFrame) (thr : ℚ) :
    runButton fetch thr [] = RunOutcome.universeError ∧
    ∀ rows : List MatchRow,
      RunOutcome.universeError ≠ RunOutcome.completed rows :=
  ⟨rfl, fun _ h => RunOutcome.noConfusion h⟩

/-- Claim C7 (confirmed): on a series of exactly 60 closes, every rolling
mean has the input's length 60; for each window w ∈ {5, 10, 20, 60} the
entry at index i is, once i ≥ w-1, the arithmetic mean of the w values
ending at i (a window that indeed holds exactly w values) and is undefined
for i < w-1; in particular the 60-day average is defined at index 59 and
undefined at every smaller index. -/
theorem ma_windows_C7 (closes : List ℚ) (h : closes.length = 60) :
    (∀ w, w ∈ ([5, 10, 20, 60] : List ℕ) →
      (rollingMean w closes).length = 60 ∧
      (∀ i, i < 60 → w ≤ i + 1 →
        ((closes.take (i + 1)).drop (i + 1 - w)).length = w ∧
        (rollingMean w closes).getD i none = some (windowMean w closes i)) ∧
      (∀ i, i < 60 → i + 1 < w →
        (rollingMean w closes).getD i none = none)) ∧
    (rollingMean 60 closes).getD 59 none = some (windowMean 60 closes 59) ∧
    (∀ i, i < 59 → (rollingMean 60 closes).getD i none = none) := by
  refine ⟨fun w _ => ⟨by rw [rollingMean_length, h],
    fun i hi hwi => ⟨?_, rollingMean_getD_defined w closes i (by omega) hwi⟩,
    fun i hi hwi => rollingMean_getD_undefined w closes i (by omega) hwi⟩,
    rollingMean_getD_defined 60 closes 59 (by omega) (by omega),
    fun i hi => rollingMean_getD_undefined 60 closes i (by omega) (by omega)⟩
  rw [List.length_drop, List.length_take]
  omega

theorem ma_windows_C7_witness :
    closesA.length = 60 ∧
    ((∀ w, w ∈ ([5, 10, 20, 60] : List ℕ) →
      (rollingMean w closesA).length = 60 ∧
      (∀ i, i < 60 → w ≤ i + 1 →
        ((closesA.take (i + 1)).drop (i + 1 - w)).length = w ∧
        (rollingMean w closesA).getD i none = some (windowMean w closesA i)) ∧
      (∀ i, i < 60 → i + 1 < w →
        (rollingMean w closesA).getD i none = none)) ∧
    (rollingMean 60 closesA).getD 59 none = some (windowMean 60 closesA 59) ∧
    (∀ i, i < 59 → (rollingMean 60 closesA).getD i none = none)) :=
  ⟨closesA_length, ma_windows_C7 closesA closesA_length⟩

/-- Claim C8 (confirmed): multiplying every close price of a series of
length ≥ 60 by a positive constant leaves the convergence gap returned by
the evaluator unchanged. -/
theorem gap_scale_invariant_C8 (df : List Bar) (c thr : ℚ) (hc : 0 < c)
    (hlen : 60 ≤ df.length) :
    (calculate_ma_alignment (scaleCloses c df) thr).2 =
      (calculate_ma_alignment df thr).2 := by
  rw [calculate_snd df thr (by omega),
    calculate_snd (scaleCloses c df) thr (by rw [scaleCloses_length]; omega),
    convGap_scale c df hc]

theorem gap_scale_invariant_C8_witness :
    (0 : ℚ) < 2 ∧ 60 ≤ (mkBars closesA 1).length ∧
    (calculate_ma_alignment (scaleCloses 2 (mkBars closesA 1)) 3).2 =
      (calculate_ma_alignment (mkBars closesA 1) 3).2 :=
  ⟨by norm_num, (mkBarsA_len 1).ge,
    gap_scale_invariant_C8 (mkBars closesA 1) 2 3 (by norm_num) (mkBarsA_len 1).ge⟩

/-- Claim C9 (confirmed): the evaluator does not mutate its caller's
dataframe.  In the heap model of the body, after the call the heap cell
holding the caller's frame contains exactly the frame it held before — in
particular none of MA5/MA10/MA20/MA60/VolMA5 was added to it, since every
column write lands in the fresh copy allocated by
`df = df.astype(float)`. -/
theorem caller_frame_unchanged_C9 (h : List PFrame) (r0 : ℕ) (thr : ℚ)
    (hr : r0 < h.length) :
    ((calculate_ma_alignment_heap h r0 thr).2).getD r0 emptyFrame =
      h.getD r0 emptyFrame := by
  simp only [calculate_ma_alignment_heap]
  by_cases hlt : (h.getD r0 emptyFrame).nRows < 60
  · rw [if_pos hlt]
  · rw [if_neg hlt]
    have hne : h.length ≠ r0 := by omega
    rw [getD_set_ne hne, getD_set_ne hne, getD_set_ne hne, getD_set_ne hne,
      getD_set_ne hne, List.getD_append _ _ _ _ hr]

theorem caller_frame_unchanged_C9_witness :
    0 < [frameOf closesA 3000000].length ∧
    ((calculate_ma_alignment_heap [frameOf closesA 3000000] 0 3).2).getD 0
        emptyFrame =
      [frameOf closesA 3000000].getD 0 emptyFrame :=
  ⟨by norm_num,
    caller_frame_unchanged_C9 [frameOf closesA 3000000] 0 3 (by norm_num)⟩

/-- Claim C10 (confirmed): every series with fewer than 60 rows is answered
by the literal pair `(False, 0)` — no moving average enters the result —
and that 0 is indistinguishable from a genuinely computed zero gap: a
60-row constant-close series, whose previous-row averages coincide and
whose gap is genuinely 0, produces the identical output `(False, 0)`. -/
theorem short_series_zero_C10 :
    (∀ (df : List Bar) (thr : ℚ), df.length < 60 →
      calculate_ma_alignment df thr = (false, 0)) ∧
    calculate_ma_alignment (mkBars (List.replicate 60 (100 : ℚ)) 3000000) 3 =
      (false, 0) :=
  ⟨fun df thr h => by rw [calculate_ma_alignment, if_pos h], calculate_const⟩

theorem short_series_zero_C10_witness :
    ([] : List Bar).length < 60 ∧ calculate_ma_alignment [] 3 = (false, 0) :=
  ⟨by norm_num, short_series_zero_C10.1 [] 3 (by norm_num)⟩

end MAScreen
